import Mathlib

/-!
Shallow embedding of `supersetapiclient/client.py` (`SupersetClient`).

The pure string algorithm `SupersetClient.join_urls` is embedded at the
character-list level; Python string indexing errors (`IndexError` on `u[0]`
or `u[-1]` for an empty string) are made explicit by returning `Option`.
The HTTP-facing methods (`token_refresher`, `authenticate`, the CSRF fetch
in `__init__`, `run`) are embedded as pure functions over a model of the
responses the remote endpoints return; every outgoing HTTP call the code
makes is recorded as an explicit effect, and exceptions
(`raise_for_status`, `JSONDecodeError`, `KeyError`) become `Except` errors.
-/

/-- Python `u[1:] if u[0] == "/" else u`, for nonempty `u` (line 102-103 of
`client.py`); on `[]` the real code raises `IndexError`, callers guard. -/
def stripLead (u : List Char) : List Char :=
  match u with
  | [] => []
  | c :: r => if c = '/' then r else c :: r

/-- Python `u[:-1] if u[-1] == "/" else u`, for nonempty `u` (line 104-105 of
`client.py`). -/
def stripTrail (u : List Char) : List Char :=
  if u.getLast? = some '/' then u.dropLast else u

/-- One loop iteration of `SupersetClient.join_urls` (lines 100-106):
`isLast` is `i == len(args)`.  `none` models the `IndexError` raised when
the segment (or the segment after its leading slash is removed) is empty:
`u[0]` and `u[-1]` are both evaluated unconditionally. -/
def processSeg (isLast : Bool) (u : List Char) : Option (List Char) :=
  if u = [] then none
  else
    let u1 := stripLead u
    if u1 = [] then none
    else if isLast then some u1 else some (stripTrail u1)

/-- The loop of `join_urls` over all segments, tracking which one is last. -/
def processArgs : List (List Char) → Option (List (List Char))
  | [] => some []
  | [u] => (processSeg true u).map (fun v => [v])
  | u :: v :: rest =>
    match processSeg false u, processArgs (v :: rest) with
    | some w, some ws => some (w :: ws)
    | _, _ => none

/-- Python `"/".join(urls)` (line 107). -/
def joinSlash : List (List Char) → List Char
  | [] => []
  | [u] => u
  | u :: v :: rest => u ++ '/' :: joinSlash (v :: rest)

/-- `SupersetClient.join_urls(*args)` (lines 91-107); `none` models the
`IndexError` on an empty (or lone-slash) segment. -/
def join_urls (args : List String) : Option String :=
  (processArgs (args.map String.data)).map (fun ws => String.mk (joinSlash ws))

/-- `join_urls(join_urls(a, b), c)`: the left-nested double call. -/
def joinLeftNested (a b c : String) : Option String :=
  (join_urls [a, b]).bind (fun s => join_urls [s, c])

/-- `join_urls(a, join_urls(b, c))`: the right-nested double call. -/
def joinRightNested (a b c : String) : Option String :=
  (join_urls [b, c]).bind (fun s => join_urls [a, s])

/-- A segment on which `join_urls` is well behaved: it stays nonempty after
stripping the boundary slashes, and stripping its leading slash does not
expose a second one. -/
def goodSeg (u : String) : Prop :=
  stripLead u.data ≠ [] ∧
  stripTrail (stripLead u.data) ≠ [] ∧
  (stripTrail (stripLead u.data)).head? ≠ some '/'

instance (u : String) : Decidable (goodSeg u) := by
  unfold goodSeg; infer_instance

lemma stripLead_nil : stripLead [] = [] := rfl

lemma ne_nil_of_stripLead_ne_nil {u : List Char} (h : stripLead u ≠ []) : u ≠ [] := by
  intro hu; exact h (hu ▸ stripLead_nil)

lemma stripLead_of_head_ne {l : List Char} (h : l.head? ≠ some '/') :
    stripLead l = l := by
  cases l with
  | nil => rfl
  | cons c r =>
    have hc : c ≠ '/' := by
      intro hcc; exact h (by simp [hcc])
    simp [stripLead, hc]

lemma stripTrail_append (l1 l2 : List Char) (h : l2 ≠ []) :
    stripTrail (l1 ++ l2) = l1 ++ stripTrail l2 := by
  unfold stripTrail
  rw [List.getLast?_append]
  cases hl : l2.getLast? with
  | none => simp [List.getLast?_eq_none_iff.mp hl] at h
  | some c =>
    by_cases hc : c = '/'
    · subst hc
      simp [Option.or, List.dropLast_append_of_ne_nil _ h]
    · simp [Option.or, hc]

lemma processSeg_false_eq {u : List Char} (h : stripLead u ≠ []) :
    processSeg false u = some (stripTrail (stripLead u)) := by
  simp [processSeg, ne_nil_of_stripLead_ne_nil h, h]

lemma processSeg_true_eq {u : List Char} (h : stripLead u ≠ []) :
    processSeg true u = some (stripLead u) := by
  simp [processSeg, ne_nil_of_stripLead_ne_nil h, h]

lemma processArgs_two (a b : List Char)
    (ha : stripLead a ≠ []) (hb : stripLead b ≠ []) :
    processArgs [a, b] = some [stripTrail (stripLead a), stripLead b] := by
  simp [processArgs, processSeg_false_eq ha, processSeg_true_eq hb]

lemma processArgs_three (a b c : List Char)
    (ha : stripLead a ≠ []) (hb : stripLead b ≠ []) (hc : stripLead c ≠ []) :
    processArgs [a, b, c] =
      some [stripTrail (stripLead a), stripTrail (stripLead b), stripLead c] := by
  simp [processArgs, processSeg_false_eq ha, processSeg_false_eq hb,
    processSeg_true_eq hc]

lemma join_urls_two (a b : String)
    (ha : stripLead a.data ≠ []) (hb : stripLead b.data ≠ []) :
    join_urls [a, b] =
      some (String.mk (stripTrail (stripLead a.data) ++ '/' :: stripLead b.data)) := by
  simp [join_urls, processArgs_two a.data b.data ha hb, joinSlash]

lemma join_urls_three (a b c : String)
    (ha : stripLead a.data ≠ []) (hb : stripLead b.data ≠ []) (hc : stripLead c.data ≠ []) :
    join_urls [a, b, c] =
      some (String.mk (stripTrail (stripLead a.data) ++
        '/' :: (stripTrail (stripLead b.data) ++ '/' :: stripLead c.data))) := by
  simp [join_urls, processArgs_three a.data b.data c.data ha hb hc, joinSlash]

lemma goodSeg_strip_ne_nil {u : String} (h : goodSeg u) : stripLead u.data ≠ [] := h.1

lemma joinLeftNested_eq (a b c : String)
    (hga : goodSeg a) (hgb : goodSeg b) (hgc : goodSeg c) :
    joinLeftNested a b c = join_urls [a, b, c] := by
  obtain ⟨ha1, ha2, ha3⟩ := hga
  obtain ⟨hb1, hb2, hb3⟩ := hgb
  obtain ⟨hc1, hc2, hc3⟩ := hgc
  unfold joinLeftNested
  rw [join_urls_two a b ha1 hb1]
  simp only [Option.some_bind]
  set A := stripTrail (stripLead a.data) with hA
  set Gb := stripLead b.data with hGb
  obtain ⟨x, A', hxA⟩ := List.exists_cons_of_ne_nil ha2
  have hx : x ≠ '/' := by
    intro hx; apply ha3; rw [hxA, hx]; rfl
  have hsdata : (String.mk (A ++ '/' :: Gb)).data = A ++ '/' :: Gb := rfl
  have hhead : (A ++ '/' :: Gb).head? ≠ some '/' := by
    rw [hxA]; simpa using hx
  have hsl : stripLead (A ++ '/' :: Gb) = A ++ '/' :: Gb :=
    stripLead_of_head_ne hhead
  have hslne : stripLead (String.mk (A ++ '/' :: Gb)).data ≠ [] := by
    rw [hsdata, hsl, hxA]; simp
  rw [join_urls_two _ c hslne hc1]
  rw [hsdata, hsl]
  have hst : stripTrail (A ++ '/' :: Gb) = A ++ '/' :: stripTrail Gb := by
    rw [stripTrail_append A ('/' :: Gb) (by simp)]
    have : ('/' :: Gb) = ['/'] ++ Gb := rfl
    rw [this, stripTrail_append ['/'] Gb hb1]
    rfl
  rw [hst, join_urls_three a b c ha1 hb1 hc1]
  simp

lemma joinRightNested_eq (a b c : String)
    (hga : goodSeg a) (hgb : goodSeg b) (hgc : goodSeg c) :
    joinRightNested a b c = join_urls [a, b, c] := by
  obtain ⟨ha1, _, _⟩ := hga
  obtain ⟨hb1, hb2, hb3⟩ := hgb
  obtain ⟨hc1, _, _⟩ := hgc
  unfold joinRightNested
  rw [join_urls_two b c hb1 hc1]
  simp only [Option.some_bind]
  set B := stripTrail (stripLead b.data) with hB
  set Gc := stripLead c.data with hGc
  obtain ⟨y, B', hyB⟩ := List.exists_cons_of_ne_nil hb2
  have hy : y ≠ '/' := by
    intro hy; apply hb3; rw [hyB, hy]; rfl
  have htdata : (String.mk (B ++ '/' :: Gc)).data = B ++ '/' :: Gc := rfl
  have hhead : (B ++ '/' :: Gc).head? ≠ some '/' := by
    rw [hyB]; simpa using hy
  have hsl : stripLead (B ++ '/' :: Gc) = B ++ '/' :: Gc :=
    stripLead_of_head_ne hhead
  have htne : stripLead (String.mk (B ++ '/' :: Gc)).data ≠ [] := by
    rw [htdata, hsl, hyB]; simp
  rw [join_urls_two a _ ha1 htne]
  rw [htdata, hsl, join_urls_three a b c ha1 hb1 hc1]

lemma processSeg_none {u : List Char} (h : stripLead u = []) (b : Bool) :
    processSeg b u = none := by
  by_cases hu : u = [] <;> simp [processSeg, hu, h]

lemma processArgs_none (args : List (List Char)) (u : List Char)
    (hu : u ∈ args) (h : stripLead u = []) : processArgs args = none := by
  induction args with
  | nil => cases hu
  | cons v rest ih =>
    cases rest with
    | nil =>
      have hv : u = v := by simpa using hu
      subst hv
      simp [processArgs, processSeg_none h]
    | cons w rest2 =>
      rcases List.mem_cons.mp hu with h1 | h2
      · subst h1
        unfold processArgs
        rw [processSeg_none h]
      · unfold processArgs
        rw [ih h2]
        cases processSeg false v <;> rfl


/-- C5: the claim's concrete example is false on the code: the trailing
slash of the *last* segment is never stripped (the strip at line 104 is
guarded by `i != len(args)`), so the result is `"http://host/api/v1/"`,
not `"http://host/api/v1"`; and associativity fails in general, e.g. at
`a = "a"`, `b = "//"`, `c = "c"`: `join_urls(a, join_urls(b, c))` is
`"a/c"` while `join_urls(a, b, c)` is `"a//c"`. -/
theorem join_urls_example_and_assoc_counterexample :
    join_urls ["http://host/", "/api/v1/"] ≠ some "http://host/api/v1" ∧
    joinRightNested "a" "//" "c" ≠ join_urls ["a", "//", "c"] := by
  decide

/-- C5 (amended): `join_urls("http://host/", "/api/v1/")` yields
`"http://host/api/v1/"` (the final segment keeps its trailing slash), and
the nested double calls agree with the flat three-argument call for
segments that remain nonempty and free of a leading slash after the
boundary-slash stripping (`goodSeg`); unrestricted associativity is false
(see the counterexample). -/
theorem join_urls_example_and_guarded_assoc :
    join_urls ["http://host/", "/api/v1/"] = some "http://host/api/v1/" ∧
    ∀ a b c : String, goodSeg a → goodSeg b → goodSeg c →
      joinLeftNested a b c = join_urls [a, b, c] ∧
      joinRightNested a b c = join_urls [a, b, c] := by
  constructor
  · decide
  · intro a b c hga hgb hgc
    exact ⟨joinLeftNested_eq a b c hga hgb hgc, joinRightNested_eq a b c hga hgb hgc⟩

/-- Witness for `join_urls_example_and_guarded_assoc` at the concrete
segments `"x"`, `"y"`, `"z"`. -/
theorem join_urls_example_and_guarded_assoc_witness :
    join_urls ["http://host/", "/api/v1/"] = some "http://host/api/v1/" ∧
    (joinLeftNested "x" "y" "z" = join_urls ["x", "y", "z"] ∧
     joinRightNested "x" "y" "z" = join_urls ["x", "y", "z"]) :=
  ⟨join_urls_example_and_guarded_assoc.1,
   join_urls_example_and_guarded_assoc.2 "x" "y" "z"
     (by decide) (by decide) (by decide)⟩

/-- C10: `join_urls` only succeeds when every segment is nonempty and is
not the lone slash: if some segment is `""` (then `u[0]` raises
`IndexError`) or `"/"` (then after stripping the leading slash `u[-1]`
raises `IndexError`), the whole call fails instead of returning a joined
URL. -/
theorem join_urls_empty_segment_errors (args : List String) (u : String)
    (hu : u ∈ args) (h : u = "" ∨ u = "/") : join_urls args = none := by
  have h' : stripLead u.data = [] := by
    rcases h with h | h <;> subst h <;> decide
  have hmem : u.data ∈ args.map String.data := List.mem_map_of_mem _ hu
  have hnone := processArgs_none (args.map String.data) u.data hmem h'
  simp [join_urls, hnone]

/-- Witness for `join_urls_empty_segment_errors`: the call
`join_urls("api", "/")` fails. -/
theorem join_urls_empty_segment_errors_witness :
    join_urls ["api", "/"] = none :=
  join_urls_empty_segment_errors ["api", "/"] "/" (by simp) (Or.inr rfl)

/-- The session's OAuth2 token pair (`self.session.token`); the code reads
`token["refresh_token"]` and `token["access_token"]`, so both keys are
modelled as present. -/
structure Token where
  access_token : String
  refresh_token : String
deriving DecidableEq

/-- What `token_refresher` extracts from the failed response's body:
`r.json().get("msg")` — either the body is not JSON (`JSONDecodeError`,
line 133) or it is JSON with an optional `msg` field. -/
inductive Body where
  | json (msg : Option String)
  | notJson
deriving DecidableEq

/-- The prepared request hanging off a response (`r.request`): its headers
are a dict (modelled as a lookup function); everything else about the
request (method, URL, body) is opaque and untouched by the interceptor. -/
structure Request where
  url : String
  method : String
  headers : String → Option String

/-- An HTTP response as seen by the hook: status code, decoded body, and
the request that produced it. -/
structure Response where
  status_code : Nat
  body : Body
  request : Request

/-- The JSON body of a refresh response (line 146): an access token and an
optional refresh token (`"refresh_token" not in new_token`, line 147). -/
structure RefreshJson where
  access_token : String
  refresh_token : Option String
deriving DecidableEq

/-- The raw refresh response: its status (for `raise_for_status`, line 144)
and its body (`none` models a non-JSON body, whose decode error would
propagate at line 146). -/
structure RefreshResponse where
  status : Nat
  js : Option RefreshJson

/-- What the outside world returns to the interceptor: the refresh
endpoint's response and, for any resent request, the raw response that
comes back off the wire for it.  Note `self.session.send` does more than
return that raw response: `requests` merges the session's response hooks
(installed at line 45) into every prepared request and `Session.send`
re-dispatches them on the response it produces, so on the resend the hook
runs again on `sendResult req`.  `token_refresher` below models a single
hook invocation, truncating at the raw response; `token_refresherD`
models the full re-dispatch. -/
structure Env where
  refreshResponse : RefreshResponse
  sendResult : Request → Response

/-- One outgoing HTTP call made inside `token_refresher`, with the TLS
`verify` flag that call uses.  The refresh `POST` (lines 141-143) goes
through a throwaway `OAuth2Session` whose temporary token's
`access_token` is the session's current refresh token and passes no
`verify` argument, so it runs with the library default `verify=True`; the
resend (line 155) passes `verify=False` explicitly. -/
inductive Effect where
  | refreshCall (tokenUsed : String) (verify : Bool)
  | send (req : Request) (verify : Bool)

/-- Number of refresh calls recorded in a trace. -/
def countRefresh (t : List Effect) : Nat :=
  t.countP (fun e => match e with | .refreshCall _ _ => true | _ => false)

/-- Number of resends recorded in a trace. -/
def countSend (t : List Effect) : Nat :=
  t.countP (fun e => match e with | .send _ _ => true | _ => false)

/-- Exceptions escaping the modelled methods: `requests.HTTPError` from
`raise_for_status`, `JSONDecodeError` from `.json()`, `KeyError` from a
missing dict key. -/
inductive HErr where
  | httpError
  | jsonError
  | keyError
deriving DecidableEq

/-- `Response.raise_for_status()`: `requests` raises exactly for status
codes in `[400, 600)`. -/
def raise_for_status (status : Nat) : Bool :=
  decide (400 ≤ status ∧ status < 600)

/-- `r.request.headers["Authorization"] = f"Bearer {access}"`
(lines 152-153): the original request with its `Authorization` header
rewritten and every other header untouched. -/
def withBearer (req : Request) (access : String) : Request :=
  { req with
    headers := fun k =>
      if k = "Authorization" then some ("Bearer " ++ access) else req.headers k }

/-- The outcome of one invocation of the hook: the response (or escaped
exception) given back to the caller, the session token afterwards, and
the trace of HTTP calls the hook made. -/
structure InterceptResult where
  result : Except HErr Response
  token : Token
  trace : List Effect

/-- One invocation of `SupersetClient.token_refresher` (lines 126-156),
over the session token `tok` and the environment `env`.  Faithful branch
for branch: only a 401 whose JSON body has `msg == "Token has expired"`
triggers a refresh; the refresh uses the current refresh token on a
throwaway session; a failing refresh propagates its error before the
token is touched; a refresh body without `"refresh_token"` inherits the
old one; the original request is resent once with the rewritten
`Authorization` header and `verify=False`, and the hook body itself hands
the resend's result back without inspecting it.  The resend is truncated
at the raw wire response here: the re-dispatch of the response hook that
the real `Session.send` performs on that response is modelled separately
by `token_refresherD`. -/
def token_refresher (env : Env) (tok : Token) (r : Response) : InterceptResult :=
  if r.status_code = 401 then
    match r.body with
    | .notJson => ⟨.ok r, tok, []⟩
    | .json msg =>
      if msg = some "Token has expired" then
        let refresh_token := tok.refresh_token
        let refresh_r := env.refreshResponse
        if raise_for_status refresh_r.status then
          ⟨.error .httpError, tok, [.refreshCall refresh_token true]⟩
        else
          match refresh_r.js with
          | none => ⟨.error .jsonError, tok, [.refreshCall refresh_token true]⟩
          | some j =>
            let new_token : Token := ⟨j.access_token, j.refresh_token.getD refresh_token⟩
            let req : Request := withBearer r.request j.access_token
            ⟨.ok (env.sendResult req), new_token,
             [.refreshCall refresh_token true, .send req false]⟩
      else ⟨.ok r, tok, []⟩
  else ⟨.ok r, tok, []⟩

/-- Normal form of the hook on an expired-token 401 with a successful,
JSON-bodied refresh response.  Shared by the claim theorems below. -/
lemma token_refresher_expired_eq (env : Env) (tok : Token) (r : Response)
    (j : RefreshJson)
    (h401 : r.status_code = 401)
    (hmsg : r.body = Body.json (some "Token has expired"))
    (hok : raise_for_status env.refreshResponse.status = false)
    (hjs : env.refreshResponse.js = some j) :
    token_refresher env tok r =
      ⟨.ok (env.sendResult (withBearer r.request j.access_token)),
       ⟨j.access_token, j.refresh_token.getD tok.refresh_token⟩,
       [.refreshCall tok.refresh_token true,
        .send (withBearer r.request j.access_token) false]⟩ := by
  unfold token_refresher
  rw [h401, hmsg]
  simp [hok, hjs]

/-- A sample prepared request for concrete instantiations. -/
def reqA : Request :=
  ⟨"http://host/api/v1/chart/", "GET",
   fun k => if k = "Accept" then some "application/json" else none⟩

/-- A sample 401 response carrying the expiry marker. -/
def respExpiredA : Response := ⟨401, Body.json (some "Token has expired"), reqA⟩

/-- A sample session token pair. -/
def tokA : Token := ⟨"acc0", "ref0"⟩

/-- Sample environment: the refresh succeeds with a full new pair and the
resend comes back 200. -/
def envA : Env :=
  ⟨⟨200, some ⟨"newacc", some "newref"⟩⟩, fun q => ⟨200, Body.json none, q⟩⟩

/-- Sample environment: the refresh succeeds without a refresh token and
the resend *again* comes back 401 with the expiry marker. -/
def envB : Env :=
  ⟨⟨200, some ⟨"newacc", none⟩⟩,
   fun q => ⟨401, Body.json (some "Token has expired"), q⟩⟩

/-- C1: on a 401 with the expiry marker and a successful refresh, the hook
makes exactly one refresh call (on the throwaway session, using the
session's current refresh token), installs the new token pair wholesale
(both components assigned together, the refresh token falling back to the
old one), rewrites only the `Authorization` header of the original failed
request to `Bearer <new access token>`, resends that request exactly once,
and returns the resend's response in place of the 401. -/
theorem token_refresher_expired_refresh_and_resend (env : Env) (tok : Token)
    (r : Response) (j : RefreshJson)
    (h401 : r.status_code = 401)
    (hmsg : r.body = Body.json (some "Token has expired"))
    (hok : raise_for_status env.refreshResponse.status = false)
    (hjs : env.refreshResponse.js = some j) :
    token_refresher env tok r =
      ⟨.ok (env.sendResult (withBearer r.request j.access_token)),
       ⟨j.access_token, j.refresh_token.getD tok.refresh_token⟩,
       [.refreshCall tok.refresh_token true,
        .send (withBearer r.request j.access_token) false]⟩ ∧
    countRefresh (token_refresher env tok r).trace = 1 ∧
    countSend (token_refresher env tok r).trace = 1 ∧
    (withBearer r.request j.access_token).headers "Authorization" =
      some ("Bearer " ++ j.access_token) ∧
    (∀ k, k ≠ "Authorization" →
      (withBearer r.request j.access_token).headers k = r.request.headers k) ∧
    (withBearer r.request j.access_token).url = r.request.url ∧
    (withBearer r.request j.access_token).method = r.request.method := by
  have h := token_refresher_expired_eq env tok r j h401 hmsg hok hjs
  refine ⟨h, ?_, ?_, ?_, ?_, rfl, rfl⟩
  · rw [h]; rfl
  · rw [h]; rfl
  · simp [withBearer]
  · intro k hk; simp [withBearer, hk]

/-- Witness for `token_refresher_expired_refresh_and_resend` at a concrete
expired-token 401. -/
theorem token_refresher_expired_refresh_and_resend_witness :
    countRefresh (token_refresher envA tokA respExpiredA).trace = 1 ∧
    countSend (token_refresher envA tokA respExpiredA).trace = 1 ∧
    (token_refresher envA tokA respExpiredA).token = ⟨"newacc", "newref"⟩ := by
  have h := token_refresher_expired_refresh_and_resend envA tokA respExpiredA
    ⟨"newacc", some "newref"⟩ rfl rfl rfl rfl
  refine ⟨h.2.1, h.2.2.1, ?_⟩
  rw [h.1]
  rfl

/-- `token_refresher` with the response-hook re-dispatch that `requests`
actually performs on the resend.  The hook installed at line 45 is a
*session* hook; `Session.prepare_request` merges session hooks into every
prepared request, and `Session.send` runs
`dispatch_hook("response", request.hooks, r)` on the response it
produces.  So `self.session.send(r.request, verify=False)` at line 155
re-invokes `token_refresher` on the resend's own response, with the
session token already replaced by this cycle's new pair.  The recursion
is unbounded while the wire keeps answering 401-with-marker; `fuel`
caps it in the model, an exhausted budget returning the raw response
undispatched. -/
def token_refresherD (env : Env) : Nat → Token → Response → InterceptResult
  | 0, tok, r => ⟨.ok r, tok, []⟩
  | fuel + 1, tok, r =>
    if r.status_code = 401 then
      match r.body with
      | .notJson => ⟨.ok r, tok, []⟩
      | .json msg =>
        if msg = some "Token has expired" then
          let refresh_token := tok.refresh_token
          let refresh_r := env.refreshResponse
          if raise_for_status refresh_r.status then
            ⟨.error .httpError, tok, [.refreshCall refresh_token true]⟩
          else
            match refresh_r.js with
            | none => ⟨.error .jsonError, tok, [.refreshCall refresh_token true]⟩
            | some j =>
              let new_token : Token := ⟨j.access_token, j.refresh_token.getD refresh_token⟩
              let req : Request := withBearer r.request j.access_token
              let nested := token_refresherD env fuel new_token (env.sendResult req)
              ⟨nested.result, nested.token,
               .refreshCall refresh_token true :: .send req false :: nested.trace⟩
        else ⟨.ok r, tok, []⟩
    else ⟨.ok r, tok, []⟩

/-- C2 is a code bug: the retry is *not* one-shot.  With the hook
re-dispatch of `Session.send` modelled (`token_refresherD`), the failing
input — a 401 with the expiry marker whose resend again returns 401 with
the marker while every refresh succeeds (`envB`) — produces a second
refresh call and a second resend for the same original request, and the
cycle count keeps growing with the available depth instead of stopping at
one, contrary to the documented one-shot contract. -/
theorem token_refresher_repeat_401_recurses :
    countRefresh (token_refresherD envB 2 tokA respExpiredA).trace = 2 ∧
    countSend (token_refresherD envB 2 tokA respExpiredA).trace = 2 ∧
    countRefresh (token_refresherD envB 3 tokA respExpiredA).trace = 3 ∧
    countSend (token_refresherD envB 3 tokA respExpiredA).trace = 3 :=
  ⟨rfl, rfl, rfl, rfl⟩

/-- C3: for every response that is not a 401, and for every 401 whose body
is not JSON or whose `msg` differs from `"Token has expired"`, the hook
returns the response unchanged, makes no HTTP call, and leaves the session
token untouched. -/
theorem token_refresher_identity_without_marker (env : Env) (tok : Token)
    (r : Response)
    (h : r.status_code ≠ 401 ∨ r.body ≠ Body.json (some "Token has expired")) :
    token_refresher env tok r = ⟨.ok r, tok, []⟩ := by
  unfold token_refresher
  rcases h with h | h
  · rw [if_neg h]
  · by_cases h401 : r.status_code = 401
    · rw [if_pos h401]
      cases hb : r.body with
      | notJson => rfl
      | json msg =>
        have hm : ¬(msg = some "Token has expired") := by
          intro hm; exact h (by rw [hb, hm])
        simp [hm]
    · rw [if_neg h401]

/-- Witness for `token_refresher_identity_without_marker` at a 200 response
and at a 401 without the marker. -/
theorem token_refresher_identity_without_marker_witness :
    token_refresher envA tokA ⟨200, Body.json none, reqA⟩ =
      ⟨.ok ⟨200, Body.json none, reqA⟩, tokA, []⟩ ∧
    token_refresher envA tokA ⟨401, Body.json (some "Not authorized"), reqA⟩ =
      ⟨.ok ⟨401, Body.json (some "Not authorized"), reqA⟩, tokA, []⟩ :=
  ⟨token_refresher_identity_without_marker envA tokA _ (Or.inl (by decide)),
   token_refresher_identity_without_marker envA tokA _ (Or.inr (by decide))⟩

/-- C4: after a successful refresh, the installed pair's access token is
the refresh response's; its refresh token is the old one when the refresh
response omits `"refresh_token"` and the response's one when present. -/
theorem token_refresher_refresh_token_fallback (env : Env) (tok : Token)
    (r : Response) (j : RefreshJson)
    (h401 : r.status_code = 401)
    (hmsg : r.body = Body.json (some "Token has expired"))
    (hok : raise_for_status env.refreshResponse.status = false)
    (hjs : env.refreshResponse.js = some j) :
    (token_refresher env tok r).token.access_token = j.access_token ∧
    (j.refresh_token = none →
      (token_refresher env tok r).token.refresh_token = tok.refresh_token) ∧
    (∀ t, j.refresh_token = some t →
      (token_refresher env tok r).token.refresh_token = t) := by
  have h := token_refresher_expired_eq env tok r j h401 hmsg hok hjs
  rw [h]
  refine ⟨rfl, ?_, ?_⟩
  · intro hn; simp [hn]
  · intro t ht; simp [ht]

/-- Witness for `token_refresher_refresh_token_fallback`: in `envB` the
refresh response has no refresh token and the old `"ref0"` is retained. -/
theorem token_refresher_refresh_token_fallback_witness :
    (token_refresher envB tokA respExpiredA).token.access_token = "newacc" ∧
    (token_refresher envB tokA respExpiredA).token.refresh_token = "ref0" := by
  have h := token_refresher_refresh_token_fallback envB tokA respExpiredA
    ⟨"newacc", none⟩ rfl rfl rfl rfl
  exact ⟨h.1, h.2.1 rfl⟩

/-- The `verify` flag the client was constructed with (line 41). -/
structure ClientConfig where
  verify : Bool

/-- The flag passed as `verify=self.verify` to the login `POST`
(line 122). -/
def loginVerify (c : ClientConfig) : Bool := c.verify

/-- The flag passed as `verify=self.verify` to the CSRF `GET`
(line 52). -/
def csrfVerify (c : ClientConfig) : Bool := c.verify

/-- The flag bound as `verify=self.verify` into `self.get`, `self.post`,
`self.put`, `self.delete` (lines 63-82). -/
def boundMethodVerify (c : ClientConfig) : Bool := c.verify

/-- C9 counterexample: the claim that every request other than the resend
uses the configured flag is false.  For a client configured with
`verify=False`, the refresh `POST` inside `token_refresher` (lines
141-143) passes no `verify` argument at all, so it runs with the library
default `verify=True`, not the configured `False`. -/
theorem refresh_ignores_configured_verify :
    Effect.refreshCall "ref0" true ∈ (token_refresher envA tokA respExpiredA).trace ∧
    (ClientConfig.mk false).verify = false := by
  constructor
  · have h := token_refresher_expired_eq envA tokA respExpiredA
      ⟨"newacc", some "newref"⟩ rfl rfl rfl rfl
    rw [h]
    exact List.Mem.head _
  · rfl

/-- C9 (amended): the resend after a refresh always runs with
`verify=False`, whatever flag the client was configured with, and every
refresh call runs with `verify=True` (the library default, since lines
141-143 pass no `verify`), also whatever flag was configured; the login,
CSRF and bound `get/post/put/delete` requests are the ones that use the
configured flag. -/
theorem resend_disables_verification (cfg : ClientConfig) (env : Env)
    (tok : Token) (r : Response) (j : RefreshJson)
    (h401 : r.status_code = 401)
    (hmsg : r.body = Body.json (some "Token has expired"))
    (hok : raise_for_status env.refreshResponse.status = false)
    (hjs : env.refreshResponse.js = some j) :
    Effect.send (withBearer r.request j.access_token) false ∈
      (token_refresher env tok r).trace ∧
    (∀ req v, Effect.send req v ∈ (token_refresher env tok r).trace → v = false) ∧
    (∀ t v, Effect.refreshCall t v ∈ (token_refresher env tok r).trace → v = true) ∧
    loginVerify cfg = cfg.verify ∧
    csrfVerify cfg = cfg.verify ∧
    boundMethodVerify cfg = cfg.verify := by
  have h := token_refresher_expired_eq env tok r j h401 hmsg hok hjs
  rw [h]
  refine ⟨List.Mem.tail _ (List.Mem.head _), ?_, ?_, rfl, rfl, rfl⟩
  · intro req v hv
    cases hv with
    | tail _ hv =>
      cases hv with
      | head => rfl
      | tail _ hv => cases hv
  · intro t v hv
    cases hv with
    | head => rfl
    | tail _ hv =>
      cases hv with
      | tail _ hv => cases hv

/-- Witness for `resend_disables_verification` at a concrete client
configured with `verify=True` and a concrete expired-token 401. -/
theorem resend_disables_verification_witness :
    Effect.send (withBearer respExpiredA.request "newacc") false ∈
      (token_refresher envA tokA respExpiredA).trace ∧
    loginVerify ⟨true⟩ = true ∧
    csrfVerify ⟨true⟩ = true ∧
    boundMethodVerify ⟨true⟩ = true := by
  have h := resend_disables_verification ⟨true⟩ envA tokA respExpiredA
    ⟨"newacc", some "newref"⟩ rfl rfl rfl rfl
  exact ⟨h.1, h.2.2.2.1, h.2.2.2.2.1, h.2.2.2.2.2⟩

/-- The login endpoint's response (lines 117-124): status for
`raise_for_status`, and the token JSON (`none` models a non-JSON body). -/
structure LoginResponse where
  status : Nat
  js : Option Token

/-- `SupersetClient.authenticate` (lines 109-124): `raise_for_status`
then `return response.json()`.  The request construction (credentials
payload, `verify=self.verify`) produces the response modelled by `resp`. -/
def authenticate (resp : LoginResponse) : Except HErr Token :=
  if raise_for_status resp.status then .error .httpError
  else
    match resp.js with
    | none => .error .jsonError
    | some t => .ok t

/-- The CSRF response body: `csrf_response.json().get("result")`
(line 55) — the `result` key may be absent. -/
structure CsrfJson where
  result : Option String
deriving DecidableEq

/-- The CSRF endpoint's response (lines 49-55). -/
structure CsrfResponse where
  status : Nat
  js : Option CsrfJson

/-- The CSRF-token fetch in `__init__` (lines 49-55):
`raise_for_status` then `self._csrf_token = csrf_response.json().get("result")`.
A missing `result` key yields `none` without raising. -/
def fetch_csrf_token (resp : CsrfResponse) : Except HErr (Option String) :=
  if raise_for_status resp.status then .error .httpError
  else
    match resp.js with
    | none => .error .jsonError
    | some j => .ok j.result

/-- C6 counterexample: `raise_for_status` raises only for status codes in
`[400, 600)`, so a 301 login response (non-2xx) is returned as a token
without any error; and a 2xx CSRF response whose body lacks the `result`
key does not fail either — the CSRF token is silently set to `None`
(`.get("result")`, line 55). -/
theorem authenticate_csrf_counterexample :
    authenticate ⟨301, some ⟨"acc", "ref"⟩⟩ = .ok ⟨"acc", "ref"⟩ ∧
    fetch_csrf_token ⟨200, some ⟨none⟩⟩ = .ok none :=
  ⟨rfl, rfl⟩

/-- C6 (amended): `authenticate` fails by propagating the HTTP error
exactly for login statuses in `[400, 600)` (other non-2xx statuses such
as 301 pass `raise_for_status`); the CSRF fetch likewise fails for
statuses in `[400, 600)`, but a JSON body lacking the `result` key does
not fail — the fetched CSRF token is simply `None`. -/
theorem authenticate_csrf_failure (lr : LoginResponse) (cr : CsrfResponse) :
    (400 ≤ lr.status ∧ lr.status < 600 → authenticate lr = .error .httpError) ∧
    (400 ≤ cr.status ∧ cr.status < 600 → fetch_csrf_token cr = .error .httpError) ∧
    (∀ j, ¬(400 ≤ cr.status ∧ cr.status < 600) → cr.js = some j →
      fetch_csrf_token cr = .ok j.result) := by
  refine ⟨?_, ?_, ?_⟩
  · intro h
    simp [authenticate, raise_for_status, h.1, h.2]
  · intro h
    simp [fetch_csrf_token, raise_for_status, h.1, h.2]
  · intro j h hj
    simp [fetch_csrf_token, raise_for_status, h, hj]

/-- Witness for `authenticate_csrf_failure`: a 500 login fails, a 403 CSRF
fetch fails, and a 200 CSRF response without `result` yields `None`. -/
theorem authenticate_csrf_failure_witness :
    authenticate ⟨500, some ⟨"a", "r"⟩⟩ = .error .httpError ∧
    fetch_csrf_token ⟨403, some ⟨some "csrf"⟩⟩ = .error .httpError ∧
    fetch_csrf_token ⟨200, some ⟨none⟩⟩ = .ok none := by
  have h1 := authenticate_csrf_failure ⟨500, some ⟨"a", "r"⟩⟩ ⟨403, some ⟨some "csrf"⟩⟩
  have h2 := authenticate_csrf_failure ⟨500, some ⟨"a", "r"⟩⟩ ⟨200, some ⟨none⟩⟩
  exact ⟨h1.1 (by decide), h1.2.1 (by decide), h2.2.2 ⟨none⟩ (by decide) rfl⟩

/-- The JSON body of the SQL-execution response (lines 179-190):
`displayLimit` and `displayLimitReached` read with `.get` (absent allowed),
`columns` and `data` read with `[...]` (absent raises `KeyError`). -/
structure SqlJson where
  displayLimit : Option Int
  displayLimitReached : Option Bool
  columns : Option String
  data : Option String
deriving DecidableEq

/-- The SQL-execution response: status and body (`none` = not JSON). -/
structure SqlResponse where
  status : Nat
  js : Option SqlJson

/-- Errors escaping `SupersetClient.run`: the `QueryLimitReached` message
interpolates the server-reported `display_limit` (lines 183-189), modelled
by the error carrying that value. -/
inductive RunErr where
  | httpError
  | jsonError
  | keyError
  | queryLimitReached (displayLimit : Option Int)
deriving DecidableEq

/-- `SupersetClient.run` (lines 158-190), from the response returned by
the SQL endpoint: propagate HTTP errors, raise `QueryLimitReached` with
the server's `displayLimit` when `displayLimitReached` is truthy, else
return `(result["columns"], result["data"])`. -/
def run (resp : SqlResponse) : Except RunErr (String × String) :=
  if raise_for_status resp.status then .error .httpError
  else
    match resp.js with
    | none => .error .jsonError
    | some result =>
      let display_limit := result.displayLimit
      if result.displayLimitReached.getD false then
        .error (.queryLimitReached display_limit)
      else
        match result.columns, result.data with
        | some cs, some ds => .ok (cs, ds)
        | _, _ => .error .keyError

/-- C7: for a 2xx SQL response whose JSON body has `columns` and `data`,
`run` returns `(columns, data)` when `displayLimitReached` is absent or
false, and fails with `QueryLimitReached` carrying the server-reported
`displayLimit` when the flag is true — truncated data is never returned
silently. -/
theorem run_query_limit (resp : SqlResponse) (result : SqlJson)
    (cs ds : String)
    (h2xx : 200 ≤ resp.status ∧ resp.status < 300)
    (hjs : resp.js = some result)
    (hc : result.columns = some cs) (hd : result.data = some ds) :
    ((result.displayLimitReached = none ∨ result.displayLimitReached = some false) →
      run resp = .ok (cs, ds)) ∧
    (result.displayLimitReached = some true →
      run resp = .error (.queryLimitReached result.displayLimit)) := by
  have hrs : raise_for_status resp.status = false := by
    simp only [raise_for_status, decide_eq_false_iff_not]
    omega
  constructor
  · intro hflag
    rcases hflag with hflag | hflag <;>
      simp [run, hrs, hjs, hflag, hc, hd]
  · intro hflag
    simp [run, hrs, hjs, hflag]

/-- A sample 2xx SQL response under the display limit. -/
def sqlRespOk : SqlResponse := ⟨200, some ⟨some 1000, some false, some "cols", some "rows"⟩⟩

/-- A sample 2xx SQL response that hit the display limit. -/
def sqlRespLimited : SqlResponse := ⟨200, some ⟨some 1000, some true, some "cols", some "rows"⟩⟩

/-- Witness for `run_query_limit` on both branches. -/
theorem run_query_limit_witness :
    run sqlRespOk = .ok ("cols", "rows") ∧
    run sqlRespLimited = .error (.queryLimitReached (some 1000)) := by
  have h1 := run_query_limit sqlRespOk ⟨some 1000, some false, some "cols", some "rows"⟩
    "cols" "rows" (by decide) rfl rfl rfl
  have h2 := run_query_limit sqlRespLimited ⟨some 1000, some true, some "cols", some "rows"⟩
    "cols" "rows" (by decide) rfl rfl rfl
  exact ⟨h1.1 (Or.inr rfl), h2.2 rfl⟩

/-- The `password` property (lines 192-194): `"*" * len(self._password)`. -/
def password (p : String) : String := String.mk (List.replicate p.length '*')

/-- C8: the password accessor never reveals the stored password: it
returns a string of `*` of the password's length, so any two stored
passwords of equal length produce identical output (nothing but the
length leaks). -/
theorem password_masked (p q : String) (h : p.length = q.length) :
    password p = password q ∧
    (∀ c, c ∈ (password p).data → c = '*') ∧
    (password p).length = p.length := by
  refine ⟨by unfold password; rw [h], ?_, ?_⟩
  · intro c hc
    exact List.eq_of_mem_replicate hc
  · show (List.replicate p.length '*').length = p.length
    simp

/-- Witness for `password_masked` at two distinct equal-length
passwords. -/
theorem password_masked_witness :
    password "hunter2" = password "abcdefg" ∧
    (password "hunter2").length = 7 := by
  have h := password_masked "hunter2" "abcdefg" rfl
  exact ⟨h.1, h.2.2.trans (by decide)⟩
